import Mathlib

/-
Verification development for the omniperf roofline engine.

The repository source under verification is src/src/roofline.py: the
coordinator (empirical_roofline), the plotting layer (generate_plot), the
standalone entry point (standalone_roofline) and the null-tolerant
conversion to_int are embedded from that file.  The core numeric engine
(calc_ai and constuct_roof, imported by roofline.py from
utils.roofline_calc) is not part of the available source; those two
functions are modelled from the specification, as marked in their doc
comments.

Numbers are modelled as exact rationals; the floating-point value NaN is
modelled as a distinguished constructor of PVal.  Python exceptions are
modelled with Except.
-/

namespace Omniperf

/-- Python floating-point value: either NaN or a finite number (modelled
exactly as a rational). -/
inductive PVal where
  | nan : PVal
  | num (q : ℚ) : PVal
deriving DecidableEq, Repr, Inhabited

/-- Division producing NaN on a zero denominator.  Modelled from the spec:
degenerate ratios (zero bytes moved, zero duration) propagate as NaN rather
than raising. -/
def qdiv (a b : ℚ) : PVal := if b = 0 then .nan else .num (a / b)

/-- Division lifted to PVal: NaN operands and zero denominators give NaN. -/
def PVal.div : PVal → PVal → PVal
  | .num a, .num b => qdiv a b
  | _, _ => .nan

/-- Multiplication lifted to PVal: NaN operands give NaN. -/
def PVal.mul : PVal → PVal → PVal
  | .num a, .num b => .num (a * b)
  | _, _ => .nan

/-- Python exception kinds reachable in the embedded code. -/
inductive PyError where
  | valueError : PyError
deriving DecidableEq, Repr

/-- Truncation toward zero, the semantics of Python int() on a finite
float. -/
def pytrunc (q : ℚ) : ℤ := if 0 ≤ q then ⌊q⌋ else ⌈q⌉

/-- Embedding of to_int from src/src/roofline.py lines 98-102: a Python
None converts to NaN; any other value is passed to int(), which truncates
a finite float but raises ValueError on NaN. -/
def to_int : Option PVal → Except PyError PVal
  | Option.none => .ok .nan
  | Option.some .nan => .error .valueError
  | Option.some (.num q) => .ok (.num (pytrunc q))

/-- Boolean success test for an Except value. -/
def exOk {ε α : Type} : Except ε α → Bool
  | .ok _ => true
  | .error _ => false

/-! ## Counter table and the AI extractor -/

/-- One counter-table row: one sample per executed kernel dispatch, with
the kernel name, the duration, the total operation count and the byte
traffic observed at each memory level (spec section 3, Counter Row). -/
structure CounterRow where
  dispatchIdx : Nat
  kernelName : String
  duration : ℚ
  ops : ℚ
  bytesL1 : ℚ
  bytesL2 : ℚ
  bytesHBM : ℚ
  bytesLDS : ℚ
deriving DecidableEq, Repr

/-- Aggregation key: group by kernel name, or one group per dispatch
(spec section 3, Aggregation Key). -/
inductive AggKey where
  | kernel : AggKey
  | dispatch : AggKey
deriving DecidableEq, Repr

/-- Helper for firstSeen: keeps the elements of the second list not yet in
the accumulator, in order of first appearance. -/
def firstSeenAux : List String → List String → List String
  | _, [] => []
  | seen, x :: xs =>
    if x ∈ seen then firstSeenAux seen xs else x :: firstSeenAux (x :: seen) xs

/-- Deduplicate a list of names preserving first-seen order. -/
def firstSeen (xs : List String) : List String := firstSeenAux [] xs

/-- Modelled from the spec: grouping phase of utils.roofline_calc.calc_ai
(spec section 4.1): group rows by the aggregation key, preserving
first-seen order; the dispatch key makes every row its own group.  Each
group carries its label (the kernel name). -/
def groupRows : AggKey → List CounterRow → List (String × List CounterRow)
  | .dispatch, rows => rows.map (fun r => (r.kernelName, [r]))
  | .kernel, rows =>
    (firstSeen (rows.map (·.kernelName))).map
      (fun k => (k, rows.filter (fun r => r.kernelName == k)))

/-- Per-group totals: summed operation count, duration and per-level byte
counters (spec section 4.1). -/
structure Totals where
  ops : ℚ
  duration : ℚ
  bytesL1 : ℚ
  bytesL2 : ℚ
  bytesHBM : ℚ
  bytesLDS : ℚ
deriving DecidableEq, Repr

/-- The all-zero totals. -/
def zeroTotals : Totals := ⟨0, 0, 0, 0, 0, 0⟩

/-- Pointwise sum of two totals. -/
def Totals.add (a b : Totals) : Totals :=
  ⟨a.ops + b.ops, a.duration + b.duration, a.bytesL1 + b.bytesL1,
   a.bytesL2 + b.bytesL2, a.bytesHBM + b.bytesHBM, a.bytesLDS + b.bytesLDS⟩

/-- The totals contributed by a single row. -/
def rowTotals (r : CounterRow) : Totals :=
  ⟨r.ops, r.duration, r.bytesL1, r.bytesL2, r.bytesHBM, r.bytesLDS⟩

/-- Sum of a list of totals. -/
def sumTotals : List Totals → Totals
  | [] => zeroTotals
  | t :: ts => Totals.add t (sumTotals ts)

/-- Modelled from the spec: summation phase of utils.roofline_calc.calc_ai
(spec section 4.1): within each group, sum operation counters, byte
counters and durations. -/
def totalsOf (g : List CounterRow) : Totals := sumTotals (g.map rowTotals)

/-- Per-group totals of the whole table under an aggregation key, labelled
and in group order. -/
def groupTotals (key : AggKey) (rows : List CounterRow) :
    List (String × Totals) :=
  (groupRows key rows).map (fun g => (g.1, totalsOf g.2))

/-- Regroup labelled totals by their label (first-seen order), summing the
totals sharing a label.  Used to state the aggregation-equivalence
property (spec section 8.3). -/
def regroupByKernel (l : List (String × Totals)) : List (String × Totals) :=
  (firstSeen (l.map (·.1))).map
    (fun k => (k, sumTotals ((l.filter (fun p => p.1 == k)).map (·.2))))

/-- AI dataset: for each of the three plotted memory levels an x-series of
AI values and a y-series of achieved performance, aligned by group index,
plus the ordered group-label list (spec sections 4.1 and 6). -/
structure AIDataset where
  kernelNames : List String
  ai_l1 : List PVal × List PVal
  ai_l2 : List PVal × List PVal
  ai_hbm : List PVal × List PVal
deriving DecidableEq, Repr, Inhabited

/-- Error raised by the AI extractor (spec section 4.1). -/
inductive ExtractErr where
  | emptyInput : ExtractErr
deriving DecidableEq, Repr

/-- Groups retained by the AI extractor: those whose total duration is
nonzero.  Modelled from the spec: rows (groups) with duration 0 are
excluded from the AI dataset entirely (spec sections 3 and 8.2). -/
def keptGroups (key : AggKey) (rows : List CounterRow) :
    List (String × List CounterRow) :=
  (groupRows key rows).filter (fun g => decide ((totalsOf g.2).duration ≠ 0))

/-- Modelled from the spec: series construction of
utils.roofline_calc.calc_ai (spec section 4.1): from the retained groups,
emit per memory level the x-series AI = total ops / total bytes (NaN on
zero bytes) and the y-series performance = total ops / total duration,
plus the ordered group labels, all aligned by group index. -/
def aiOf (kept : List (String × List CounterRow)) : AIDataset :=
  let perf := kept.map (fun g => qdiv (totalsOf g.2).ops (totalsOf g.2).duration)
  { kernelNames := kept.map (·.1)
    ai_l1 := (kept.map (fun g => qdiv (totalsOf g.2).ops (totalsOf g.2).bytesL1), perf)
    ai_l2 := (kept.map (fun g => qdiv (totalsOf g.2).ops (totalsOf g.2).bytesL2), perf)
    ai_hbm := (kept.map (fun g => qdiv (totalsOf g.2).ops (totalsOf g.2).bytesHBM), perf) }

/-- Modelled from the spec: utils.roofline_calc.calc_ai (spec section 4.1),
whose source is not part of the repository snapshot.  Groups rows by the
aggregation key, drops zero-duration groups, emits the per-level series
via aiOf, and raises EmptyInputError when no group survives. -/
def calc_ai (key : AggKey) (rows : List CounterRow) :
    Except ExtractErr AIDataset :=
  match keptGroups key rows with
  | [] => .error .emptyInput
  | g₀ :: gs => .ok (aiOf (g₀ :: gs))

/-! ## Benchmark table and the ceiling constructor -/

/-- One micro-benchmark row: a (device id, metric name) pair with the
measured peak rate, which may be missing (spec section 3, Benchmark Row).
Metric names identify bandwidth ceilings (HBM, L2, L1, LDS) or compute
ceilings (VALU-dtype, MFMA-dtype). -/
structure BenchRow where
  device : Nat
  metric : String
  value : Option ℚ
deriving DecidableEq, Repr

/-- Errors raised by the ceiling constructor (spec sections 4.2 and 7). -/
inductive CeilError where
  | metricNotFound (metric : String) : CeilError
  | unsupportedLevel (level : String) : CeilError
deriving DecidableEq, Repr

/-- Supported datatypes dispatched on by the plotting layer
(src/src/roofline.py builds FP32, FP16 and I8 roof specifications). -/
inductive Dtype where
  | FP32 : Dtype
  | FP16 : Dtype
  | I8 : Dtype
deriving DecidableEq, Repr

/-- Canonical string tag of a datatype, as used in the roof-spec dicts of
empirical_roofline. -/
def Dtype.name : Dtype → String
  | .FP32 => "FP32"
  | .FP16 => "FP16"
  | .I8 => "I8"

/-- Modelled from the spec: benchmark-table lookup inside
utils.roofline_calc.constuct_roof (spec section 4.2): the first row
matching the device and metric is used; an absent row is the structural
error MetricNotFoundError, while a present row with a missing (None) value
converts to NaN rather than raising. -/
def lookupBench (bench : List BenchRow) (dev : Nat) (metric : String) :
    Except CeilError PVal :=
  match bench.find? (fun r => r.device == dev && r.metric == metric) with
  | Option.none => .error (.metricNotFound metric)
  | Option.some r =>
    match r.value with
    | Option.none => .ok .nan
    | Option.some q => .ok (.num q)

/-- Modelled from the spec: the low-AI anchor of the plot domain (spec
section 4.2 leaves the exact bound open, giving only the example of the
minimal plot-domain bound). -/
def aiMin : ℚ := 1 / 100

/-- Modelled from the spec: the high-AI end of the plot domain spanned by
the horizontal compute ceilings. -/
def aiMax : ℚ := 1000

/-- One ceiling line: a two-point x-series and y-series plus the scalar
peak used to label it (spec section 3, Ceiling Line). -/
structure CeilingLine where
  xs : List PVal
  ys : List PVal
  peak : PVal
deriving DecidableEq, Repr

/-- Modelled from the spec: the bandwidth-bound line of a memory level
(spec section 4.2): a two-point segment of slope peak-bandwidth from the
low-AI anchor to the knee AI* = peak-compute / peak-bandwidth, so that the
second point is (AI*, bandwidth * AI*). -/
def bwLine (bw knee : PVal) : CeilingLine :=
  { xs := [PVal.num aiMin, PVal.div knee bw]
    ys := [PVal.mul bw (PVal.num aiMin), PVal.mul bw (PVal.div knee bw)]
    peak := bw }

/-- Modelled from the spec: a compute ceiling is a single horizontal
two-point line spanning the AI domain at height equal to the peak compute
rate (spec section 4.2). -/
def computeLine (peak : PVal) : CeilingLine :=
  { xs := [PVal.num aiMin, PVal.num aiMax], ys := [peak, peak], peak := peak }

/-- The supported memory-hierarchy level names (spec sections 3 and 6). -/
def supportedLevels : List String := ["HBM", "L2", "L1", "LDS"]

/-- Requested memory levels: either the sentinel ALL or an explicit list
(spec section 4.2; in the Python source the former is the string "ALL" and
the latter a list of level names). -/
inductive MemSel where
  | all : MemSel
  | chosen (levels : List String) : MemSel
deriving DecidableEq, Repr

/-- Resolution of the requested memory levels: the sentinel ALL means every
supported level.  This mirrors both the spec (section 4.2) and
src/src/roofline.py lines 147-150, where ALL resolves to the cache
hierarchy HBM, L2, L1, LDS in that order. -/
def resolveLevels : MemSel → List String
  | .all => supportedLevels
  | .chosen ls => ls

/-- Lower-casing of a level name (the Python source applies str.lower to
level names when keying the ceiling dataset). -/
def lowerStr (s : String) : String := ⟨s.data.map Char.toLower⟩

/-- Modelled from the spec: validation that every requested level is in the
known hierarchy; an unknown name is UnsupportedLevelError (spec section
4.2). -/
def checkSupported : List String → Except CeilError Unit
  | [] => .ok ()
  | l :: ls =>
    if l ∈ supportedLevels then checkSupported ls else .error (.unsupportedLevel l)

/-- Modelled from the spec: per-level bandwidth-ceiling construction inside
utils.roofline_calc.constuct_roof (spec section 4.2): for each requested
level, look up its peak bandwidth and emit the bandwidth-bound line keyed
by the lower-cased level name. -/
def mkBWs (bench : List BenchRow) (dev : Nat) (knee : PVal) :
    List String → Except CeilError (List (String × CeilingLine))
  | [] => .ok []
  | l :: ls =>
    match lookupBench bench dev l with
    | .error e => .error e
    | .ok bw =>
      match mkBWs bench dev knee ls with
      | .error e => .error e
      | .ok rest => .ok ((lowerStr l, bwLine bw knee) :: rest)

/-- Modelled from the spec: utils.roofline_calc.constuct_roof (spec section
4.2), whose source is not part of the repository snapshot.  Validates the
requested levels, looks up the MFMA compute peak of the datatype (the
compute roof that is always present, used for the knee), emits one
bandwidth line per requested level, a VALU compute ceiling for non-matrix
datatypes (neither FP16 nor I8) and always an MFMA compute ceiling, as a
mapping keyed by lower-cased ceiling name. -/
def constuct_roof (bench : List BenchRow) (dev : Nat) (dtype : Dtype)
    (mems : MemSel) : Except CeilError (List (String × CeilingLine)) :=
  match checkSupported (resolveLevels mems) with
  | .error e => .error e
  | .ok _ =>
    match lookupBench bench dev ("MFMA-" ++ dtype.name) with
    | .error e => .error e
    | .ok mfmaPeak =>
      match mkBWs bench dev mfmaPeak (resolveLevels mems) with
      | .error e => .error e
      | .ok bws =>
        if dtype = .FP16 ∨ dtype = .I8 then
          .ok (bws ++ [("mfma", computeLine mfmaPeak)])
        else
          match lookupBench bench dev ("VALU-" ++ dtype.name) with
          | .error e => .error e
          | .ok valuPeak =>
            .ok (bws ++ [("valu", computeLine valuPeak),
                         ("mfma", computeLine mfmaPeak)])

/-- Boolean test for the MetricNotFoundError outcome. -/
def isMetricNotFound {α : Type} : Except CeilError α → Bool
  | .error (.metricNotFound _) => true
  | _ => false

/-! ## Plotting layer (generate_plot, src/src/roofline.py lines 133-257)

Marker colours and marker symbols are pure styling and are not modelled;
the kernel-names flag only selects marker symbols, so it does not affect
the modelled output. -/

/-- One plotly trace as far as the numerics are concerned: its name, its
x- and y-series, its mode string and its hover-text entries (a Python None
entry is modelled as Option.none). -/
structure Trace where
  name : String
  xs : List PVal
  ys : List PVal
  mode : String
  text : List (Option String)
deriving DecidableEq, Repr

/-- Errors of the plotting layer: a ceiling-constructor error, a missing
key in the ceiling dataset (Python KeyError), or a Python exception from
the label conversion. -/
inductive PlotErr where
  | ceil (e : CeilError) : PlotErr
  | keyMissing (k : String) : PlotErr
  | pyErr (e : PyError) : PlotErr
deriving DecidableEq, Repr

/-- Plot mode selected on src/src/roofline.py line 140. -/
def plotMode (is_standalone : Bool) : String :=
  if is_standalone then "lines+text" else "lines"

/-- Decimal rendering of a converted peak, as Python str.format renders the
result of to_int (an int, or the float NaN). -/
def pyNumStr : PVal → String
  | .nan => "nan"
  | .num q => toString q.num

/-- Peak label text: to_int applied to the peak then formatted with a unit
suffix (src/src/roofline.py lines 162, 183, 205); the ValueError raised by
int() on NaN propagates. -/
def fmtPeak (p : PVal) (unit : String) : Except PlotErr String :=
  match to_int (Option.some p) with
  | .error e => .error (.pyErr e)
  | .ok v => .ok (pyNumStr v ++ unit)

/-- Indexing into the ceiling dataset (ceiling_data[key] in the source); a
missing key is a Python KeyError. -/
def lookupCD (ds : List (String × CeilingLine)) (k : String) :
    Except PlotErr CeilingLine :=
  match ds.find? (fun p => p.1 == k) with
  | Option.none => .error (.keyMissing k)
  | Option.some p => .ok p.2

/-- Bandwidth-ceiling traces, one per level of the cache hierarchy, in
order (src/src/roofline.py lines 152-169): each trace is named
level-dtype, takes its series from the ceiling dataset keyed by the
lower-cased level name, and labels the peak in GB/s (the second text entry
is None in standalone mode). -/
def bwTraces (ds : List (String × CeilingLine)) (dtype : Dtype)
    (is_standalone : Bool) :
    List String → Except PlotErr (List Trace)
  | [] => .ok []
  | l :: ls =>
    match lookupCD ds (lowerStr l) with
    | .error e => .error e
    | .ok cd =>
      match fmtPeak cd.peak " GB/s" with
      | .error e => .error e
      | .ok s =>
        match bwTraces ds dtype is_standalone ls with
        | .error e => .error e
        | .ok rest =>
          .ok ({ name := l ++ "-" ++ dtype.name
                 xs := cd.xs
                 ys := cd.ys
                 mode := plotMode is_standalone
                 text := [Option.some s,
                          if is_standalone then Option.none else Option.some s] }
               :: rest)

/-- A compute-ceiling trace (src/src/roofline.py lines 171-210): series
from the ceiling dataset under the given key, labelled in GFLOP/s (the
first text entry is None in standalone mode). -/
def computeTrace (ds : List (String × CeilingLine)) (key label : String)
    (is_standalone : Bool) : Except PlotErr Trace :=
  match lookupCD ds key with
  | .error e => .error e
  | .ok cd =>
    match fmtPeak cd.peak " GFLOP/s" with
    | .error e => .error e
    | .ok s =>
      .ok { name := label
            xs := cd.xs
            ys := cd.ys
            mode := plotMode is_standalone
            text := [if is_standalone then Option.none else Option.some s,
                     Option.some s] }

/-- Application AI scatter traces (src/src/roofline.py lines 216-245). -/
def aiTraces (ai : AIDataset) : List Trace :=
  [{ name := "ai_l1", xs := ai.ai_l1.1, ys := ai.ai_l1.2,
     mode := "markers", text := [] },
   { name := "ai_l2", xs := ai.ai_l2.1, ys := ai.ai_l2.2,
     mode := "markers", text := [] },
   { name := "ai_hbm", xs := ai.ai_hbm.1, ys := ai.ai_hbm.2,
     mode := "markers", text := [] }]

/-- The peak-VALU trace list (src/src/roofline.py lines 171-188): one
trace unless the datatype is FP16 or I8, in which case none. -/
def valuTraces (ds : List (String × CeilingLine)) (dtype : Dtype)
    (is_standalone : Bool) : Except PlotErr (List Trace) :=
  if dtype = .FP16 ∨ dtype = .I8 then .ok []
  else
    match computeTrace ds "valu" ("Peak VALU-" ++ dtype.name) is_standalone with
    | .error e => .error e
    | .ok t => .ok [t]

/-- Embedding of generate_plot, src/src/roofline.py lines 133-257: builds
the ceiling dataset, then adds one bandwidth trace per cache-hierarchy
level (ALL resolving to HBM, L2, L1, LDS), the peak-VALU traces, always a
peak-MFMA trace, and the application AI scatter traces unless the datatype
is I8.  The figure is modelled as the list of its traces in insertion
order. -/
def generate_plot (bench : List BenchRow) (dev : Nat) (dtype : Dtype)
    (ai : AIDataset) (mems : MemSel) (is_standalone kernel_names : Bool) :
    Except PlotErr (List Trace) :=
  match constuct_roof bench dev dtype mems with
  | .error e => .error (.ceil e)
  | .ok ds =>
    match bwTraces ds dtype is_standalone (resolveLevels mems) with
    | .error e => .error e
    | .ok bts =>
      match valuTraces ds dtype is_standalone with
      | .error e => .error e
      | .ok vts =>
        match computeTrace ds "mfma" ("Peak MFMA-" ++ dtype.name)
            is_standalone with
        | .error e => .error e
        | .ok mt =>
          .ok (bts ++ vts ++ [mt] ++
               (if dtype = .I8 then [] else aiTraces ai))

/-! ## Coordinator (empirical_roofline, src/src/roofline.py lines 259-384)
and standalone entry point (standalone_roofline, lines 104-130) -/

/-- Errors reported by the coordinator: its own argument check (the
sys.exit on lines 272-274 when kernel names are requested outside
standalone mode), or an extractor or plotting failure passed through. -/
inductive CoordErr where
  | kernelNamesRequiresStandalone : CoordErr
  | extract (e : ExtractErr) : CoordErr
  | plot (e : PlotErr) : CoordErr
deriving DecidableEq, Repr

/-- Embedding of empirical_roofline, src/src/roofline.py lines 259-384:
rejects kernel-name overlay outside standalone mode, computes the AI data
once, then builds the FP32 figure, the FP16 figure and the combined
FP16+I8 figure (the I8 traces are appended onto the FP16 figure, so the
combined figure is the concatenation of the two trace lists).  The device
id used for benchmark extraction is hardcoded to 0 in the roof-spec dicts
(line 280); the dev_id argument only names output files, which are not
modelled.  PDF/HTML output is not modelled; the result is the trace
contents of the three figures. -/
def empirical_roofline (bench : List BenchRow) (counters : List CounterRow)
    (dev_id : Nat) (sort_type : AggKey) (mems : MemSel)
    (incl_kernel_names is_standalone : Bool) :
    Except CoordErr (List Trace × List Trace × List Trace) :=
  if incl_kernel_names && !is_standalone then
    .error .kernelNamesRequiresStandalone
  else
    match calc_ai sort_type counters with
    | .error e => .error (.extract e)
    | .ok ai =>
      match generate_plot bench 0 .FP32 ai mems is_standalone incl_kernel_names with
      | .error e => .error (.plot e)
      | .ok fp32 =>
        match generate_plot bench 0 .FP16 ai mems is_standalone incl_kernel_names with
        | .error e => .error (.plot e)
        | .ok fp16 =>
          match generate_plot bench 0 .I8 ai mems is_standalone incl_kernel_names with
          | .error e => .error (.plot e)
          | .ok i8 => .ok (fp32, fp16, fp16 ++ i8)

/-- Memory-level normalization of standalone_roofline, src/src/roofline.py
lines 110-112: when the requested list contains vL1D, remove its first
occurrence and append L1. -/
def normalizeMemLevels (ls : List String) : List String :=
  if "vL1D" ∈ ls then ls.erase "vL1D" ++ ["L1"] else ls

/-- Normalization lifted to a memory-level selection; the sentinel ALL is a
string in the source, so the vL1D membership test only fires on a list. -/
def normalizeMemSel : MemSel → MemSel
  | .all => .all
  | .chosen ls => .chosen (normalizeMemLevels ls)

/-- Embedding of standalone_roofline, src/src/roofline.py lines 104-130:
normalizes the requested memory levels, then invokes empirical_roofline in
standalone mode.  CSV loading and path checks are external input and are
not modelled. -/
def standalone_roofline (bench : List BenchRow) (counters : List CounterRow)
    (dev_id : Nat) (sort_type : AggKey) (mems : MemSel)
    (kernel_names : Bool) :
    Except CoordErr (List Trace × List Trace × List Trace) :=
  empirical_roofline bench counters dev_id sort_type (normalizeMemSel mems)
    kernel_names true

/-- Success test of the extract-and-plot pipeline: the AI extractor
succeeds and each of the three per-datatype plot constructions succeeds on
its output (the premise of the coordinator claim). -/
def pipelineOk (bench : List BenchRow) (counters : List CounterRow)
    (sort_type : AggKey) (mems : MemSel)
    (is_standalone kernel_names : Bool) : Bool :=
  match calc_ai sort_type counters with
  | .error _ => false
  | .ok ai =>
    exOk (generate_plot bench 0 .FP32 ai mems is_standalone kernel_names) &&
    exOk (generate_plot bench 0 .FP16 ai mems is_standalone kernel_names) &&
    exOk (generate_plot bench 0 .I8 ai mems is_standalone kernel_names)

/-! ## Decidability, extraction helpers and concrete sample data -/

instance exceptDecEq {ε α : Type} [DecidableEq ε] [DecidableEq α] :
    DecidableEq (Except ε α)
  | .ok a, .ok b => decidable_of_iff (a = b) (by simp)
  | .ok _, .error _ => Decidable.isFalse (by simp)
  | .error _, .ok _ => Decidable.isFalse (by simp)
  | .error e, .error f => decidable_of_iff (e = f) (by simp)

/-- The dataset inside a successful extractor result (default on error). -/
def getAI : Except ExtractErr AIDataset → AIDataset
  | .ok a => a
  | .error _ => default

/-- The trace list inside a successful plot result (empty on error). -/
def getTraces : Except PlotErr (List Trace) → List Trace
  | .ok ts => ts
  | .error _ => []

/-- Sample counter table: one kernel with nonzero duration and zero HBM
bytes, and one kernel whose only dispatch has zero duration. -/
def rowsA : List CounterRow :=
  [⟨0, "kA", 1, 3, 2, 4, 0, 1⟩, ⟨1, "kB", 0, 5, 5, 5, 5, 5⟩]

/-- Sample benchmark table covering every supported level and every
compute ceiling of the three datatypes, on device 0. -/
def benchA : List BenchRow :=
  [⟨0, "HBM", Option.some 4⟩, ⟨0, "L2", Option.some 6⟩,
   ⟨0, "L1", Option.some 8⟩, ⟨0, "LDS", Option.some 10⟩,
   ⟨0, "MFMA-FP32", Option.some 8⟩, ⟨0, "VALU-FP32", Option.some 6⟩,
   ⟨0, "MFMA-FP16", Option.some 16⟩, ⟨0, "MFMA-I8", Option.some 20⟩]

/-- Sample benchmark table lacking an LDS row. -/
def benchMissingLDS : List BenchRow :=
  [⟨0, "HBM", Option.some 4⟩, ⟨0, "MFMA-FP32", Option.some 8⟩]

/-! ## Helper lemmas -/

theorem Totals.add_zeroTotals (t : Totals) : Totals.add t zeroTotals = t := by
  cases t
  simp [Totals.add, zeroTotals]

theorem totalsOf_singleton (r : CounterRow) : totalsOf [r] = rowTotals r := by
  simp [totalsOf, sumTotals, Totals.add_zeroTotals]

theorem groupTotals_dispatch (rows : List CounterRow) :
    groupTotals .dispatch rows
      = rows.map (fun r => (r.kernelName, rowTotals r)) := by
  simp [groupTotals, groupRows, List.map_map, Function.comp_def,
    totalsOf_singleton]

theorem filter_map_pair (rows : List CounterRow) (k : String) :
    ((rows.map (fun r => (r.kernelName, rowTotals r))).filter
        (fun p => p.1 == k)).map (·.2)
      = (rows.filter (fun r => r.kernelName == k)).map rowTotals := by
  induction rows with
  | nil => rfl
  | cons r rs ih =>
    cases h : (r.kernelName == k) <;>
      simp [List.filter_cons, h, ih]

theorem calc_ai_ok {key : AggKey} {rows : List CounterRow} {ds : AIDataset}
    (h : calc_ai key rows = .ok ds) : ds = aiOf (keptGroups key rows) := by
  cases hk : keptGroups key rows with
  | nil => simp [calc_ai, hk] at h
  | cons g gs =>
    simp only [calc_ai, hk] at h
    exact (Except.ok.injEq _ _ ▸ h).symm

theorem calc_ai_err {key : AggKey} {rows : List CounterRow} {e : ExtractErr}
    (h : calc_ai key rows = .error e) : keptGroups key rows = [] := by
  cases hk : keptGroups key rows with
  | nil => rfl
  | cons g gs => simp [calc_ai, hk] at h

/-! ## Claims about the AI extractor -/

/-- C1: for every group emitted by the AI extractor, the arithmetic
intensity at each memory level is total operations divided by total bytes
at that level, and it is NaN when the total bytes are zero; a zero-bytes
group is not an error, since the extractor can only fail on an empty
group list. -/
theorem ai_ratio_correct (key : AggKey) (rows : List CounterRow) :
    (∀ ds, calc_ai key rows = .ok ds →
      ds.ai_l1.1 = (keptGroups key rows).map (fun g =>
          if (totalsOf g.2).bytesL1 = 0 then PVal.nan
          else PVal.num ((totalsOf g.2).ops / (totalsOf g.2).bytesL1)) ∧
      ds.ai_l2.1 = (keptGroups key rows).map (fun g =>
          if (totalsOf g.2).bytesL2 = 0 then PVal.nan
          else PVal.num ((totalsOf g.2).ops / (totalsOf g.2).bytesL2)) ∧
      ds.ai_hbm.1 = (keptGroups key rows).map (fun g =>
          if (totalsOf g.2).bytesHBM = 0 then PVal.nan
          else PVal.num ((totalsOf g.2).ops / (totalsOf g.2).bytesHBM))) ∧
    (∀ e, calc_ai key rows = .error e → keptGroups key rows = []) := by
  constructor
  · intro ds h
    rw [calc_ai_ok h]
    refine ⟨?_, ?_, ?_⟩ <;> simp [aiOf, qdiv]
  · intro e h
    exact calc_ai_err h

/-- C3: running the extractor with the dispatch aggregation key and then
regrouping the per-dispatch totals by kernel name gives exactly the
per-group totals of the kernel aggregation key: operation, byte and
duration sums are additive across dispatches of the same kernel. -/
theorem aggregation_equivalence (rows : List CounterRow) :
    regroupByKernel (groupTotals .dispatch rows)
      = groupTotals .kernel rows := by
  rw [groupTotals_dispatch]
  simp only [regroupByKernel, groupTotals, groupRows, List.map_map,
    Function.comp_def, filter_map_pair, totalsOf]

/-- C4: a group with zero total duration is omitted from the AI dataset
entirely: the label list and every series enumerate exactly the groups
with nonzero duration, in order, and each emitted performance value is
total operations divided by total duration. -/
theorem zero_duration_excluded (key : AggKey) (rows : List CounterRow)
    (ds : AIDataset) (h : calc_ai key rows = .ok ds) :
    ds.kernelNames = ((groupRows key rows).filter
        (fun g => decide ((totalsOf g.2).duration ≠ 0))).map (·.1) ∧
    ds.ai_l1.2 = (keptGroups key rows).map (fun g =>
        PVal.num ((totalsOf g.2).ops / (totalsOf g.2).duration)) ∧
    ds.ai_l2.2 = ds.ai_l1.2 ∧ ds.ai_hbm.2 = ds.ai_l1.2 ∧
    ds.ai_l1.1.length = ds.kernelNames.length ∧
    ds.ai_l2.1.length = ds.kernelNames.length ∧
    ds.ai_hbm.1.length = ds.kernelNames.length := by
  rw [calc_ai_ok h]
  refine ⟨rfl, ?_, rfl, rfl, by simp [aiOf], by simp [aiOf], by simp [aiOf]⟩
  simp only [aiOf]
  refine List.map_congr_left (fun g hg => ?_)
  have hd : (totalsOf g.2).duration ≠ 0 := by
    have := (List.mem_filter.mp hg).2
    simpa using this
  simp [qdiv, hd]

/-! ## Claims about the null-tolerant conversion -/

/-- C7 counterexample: to_int applied to a NaN-bearing value raises
ValueError (Python int() cannot convert a float NaN), so a degenerate
measurement does abort, refuting the claim that to_int never raises on
non-None input. -/
theorem to_int_nan_raises :
    to_int (Option.some PVal.nan) = .error PyError.valueError := rfl

/-- C7 amended: to_int returns NaN when its argument is None and returns
the truncated integer value on any finite numeric argument without
raising; only a NaN-bearing argument makes it raise. -/
theorem to_int_null_tolerance :
    to_int Option.none = .ok PVal.nan ∧
    (∀ q : ℚ, to_int (Option.some (PVal.num q)) = .ok (.num (pytrunc q))) ∧
    to_int (Option.some PVal.nan) = .error PyError.valueError :=
  ⟨rfl, fun _ => rfl, rfl⟩

/-! ## Helper lemmas for the ceiling constructor -/

theorem lookupBench_err {bench : List BenchRow} {dev : Nat} {metric : String}
    {e : CeilError} (h : lookupBench bench dev metric = .error e) :
    e = .metricNotFound metric := by
  unfold lookupBench at h
  cases hf : bench.find? (fun r => r.device == dev && r.metric == metric) with
  | none =>
    rw [hf] at h
    injection h with h2
    exact h2.symm
  | some r =>
    rw [hf] at h
    cases hv : r.value <;> simp [hv] at h

theorem checkSupported_ok {ls : List String}
    (h : ∀ l ∈ ls, l ∈ supportedLevels) : checkSupported ls = .ok () := by
  induction ls with
  | nil => rfl
  | cons l ls ih =>
    simp only [checkSupported]
    rw [if_pos (h l (by simp))]
    exact ih (fun x hx => h x (by simp [hx]))

theorem checkSupported_mem {ls : List String} {u : Unit}
    (h : checkSupported ls = .ok u) : ∀ l ∈ ls, l ∈ supportedLevels := by
  induction ls with
  | nil => intro l hl; cases hl
  | cons x xs ih =>
    simp only [checkSupported] at h
    by_cases hx : x ∈ supportedLevels
    · rw [if_pos hx] at h
      intro l hl
      rcases List.mem_cons.mp hl with rfl | hl2
      · exact hx
      · exact ih h l hl2
    · rw [if_neg hx] at h
      simp at h

theorem mkBWs_err {bench : List BenchRow} {dev : Nat} {knee : PVal}
    {ls : List String} {e : CeilError}
    (h : mkBWs bench dev knee ls = .error e) : ∃ m, e = .metricNotFound m := by
  induction ls generalizing e with
  | nil => simp [mkBWs] at h
  | cons l ls ih =>
    simp only [mkBWs] at h
    cases hl : lookupBench bench dev l with
    | error e2 =>
      rw [hl] at h
      injection h with h2
      exact ⟨l, h2 ▸ lookupBench_err hl⟩
    | ok bw =>
      rw [hl] at h
      cases hm : mkBWs bench dev knee ls with
      | error e2 =>
        rw [hm] at h
        injection h with h2
        exact h2 ▸ ih hm
      | ok rest =>
        rw [hm] at h
        simp at h

theorem mkBWs_not_ok {bench : List BenchRow} {dev : Nat} {knee : PVal}
    {ls : List String} {l : String} {e : CeilError} (hl : l ∈ ls)
    (he : lookupBench bench dev l = .error e) :
    ∀ res, mkBWs bench dev knee ls ≠ .ok res := by
  induction ls with
  | nil => cases hl
  | cons x xs ih =>
    intro res h
    simp only [mkBWs] at h
    cases hx : lookupBench bench dev x with
    | error e2 => rw [hx] at h; simp at h
    | ok bw =>
      rw [hx] at h
      cases hm : mkBWs bench dev knee xs with
      | error e2 => rw [hm] at h; simp at h
      | ok rest =>
        rcases List.mem_cons.mp hl with rfl | hl2
        · rw [hx] at he; simp at he
        · exact ih hl2 rest hm

theorem mkBWs_mem {bench : List BenchRow} {dev : Nat} {knee : PVal}
    {ls : List String} {res : List (String × CeilingLine)}
    (h : mkBWs bench dev knee ls = .ok res) :
    ∀ l ∈ ls, ∃ b, lookupBench bench dev l = .ok b ∧
      (lowerStr l, bwLine b knee) ∈ res := by
  induction ls generalizing res with
  | nil => intro l hl; cases hl
  | cons x xs ih =>
    simp only [mkBWs] at h
    cases hx : lookupBench bench dev x with
    | error e2 => rw [hx] at h; simp at h
    | ok bw =>
      rw [hx] at h
      cases hm : mkBWs bench dev knee xs with
      | error e2 => rw [hm] at h; simp at h
      | ok rest =>
        rw [hm] at h
        injection h with h2
        subst h2
        intro l hl
        rcases List.mem_cons.mp hl with rfl | hl2
        · exact ⟨bw, hx, by simp⟩
        · obtain ⟨b, hb1, hb2⟩ := ih hm l hl2
          exact ⟨b, hb1, by simp [hb2]⟩

theorem mkBWs_keys {bench : List BenchRow} {dev : Nat} {knee : PVal}
    {ls : List String} {res : List (String × CeilingLine)}
    (h : mkBWs bench dev knee ls = .ok res) :
    res.map (·.1) = ls.map lowerStr := by
  induction ls generalizing res with
  | nil =>
    simp only [mkBWs] at h
    injection h with h2
    subst h2
    rfl
  | cons x xs ih =>
    simp only [mkBWs] at h
    cases hx : lookupBench bench dev x with
    | error e2 => rw [hx] at h; simp at h
    | ok bw =>
      rw [hx] at h
      cases hm : mkBWs bench dev knee xs with
      | error e2 => rw [hm] at h; simp at h
      | ok rest =>
        rw [hm] at h
        injection h with h2
        subst h2
        simp [ih hm]

theorem roof_ok_inv {bench : List BenchRow} {dev : Nat} {dtype : Dtype}
    {mems : MemSel} {ds : List (String × CeilingLine)}
    (h : constuct_roof bench dev dtype mems = .ok ds) :
    ∃ mfmaPeak bws, checkSupported (resolveLevels mems) = .ok () ∧
      lookupBench bench dev ("MFMA-" ++ dtype.name) = .ok mfmaPeak ∧
      mkBWs bench dev mfmaPeak (resolveLevels mems) = .ok bws ∧
      (((dtype = .FP16 ∨ dtype = .I8) ∧
          ds = bws ++ [("mfma", computeLine mfmaPeak)]) ∨
       (¬(dtype = .FP16 ∨ dtype = .I8) ∧
          ∃ valuPeak, lookupBench bench dev ("VALU-" ++ dtype.name) = .ok valuPeak ∧
            ds = bws ++ [("valu", computeLine valuPeak),
                         ("mfma", computeLine mfmaPeak)])) := by
  unfold constuct_roof at h
  cases hc : checkSupported (resolveLevels mems) with
  | error e => simp [hc] at h
  | ok u =>
    simp only [hc] at h
    cases hm : lookupBench bench dev ("MFMA-" ++ dtype.name) with
    | error e => simp [hm] at h
    | ok mfmaPeak =>
      simp only [hm] at h
      cases hb : mkBWs bench dev mfmaPeak (resolveLevels mems) with
      | error e => simp [hb] at h
      | ok bws =>
        simp only [hb] at h
        by_cases hd : dtype = .FP16 ∨ dtype = .I8
        · rw [if_pos hd] at h
          injection h with h2
          exact ⟨mfmaPeak, bws, rfl, rfl, hb, Or.inl ⟨hd, h2.symm⟩⟩
        · rw [if_neg hd] at h
          cases hv : lookupBench bench dev ("VALU-" ++ dtype.name) with
          | error e => simp [hv] at h
          | ok valuPeak =>
            simp only [hv] at h
            injection h with h2
            exact ⟨mfmaPeak, bws, rfl, rfl, hb,
              Or.inr ⟨hd, valuPeak, rfl, h2.symm⟩⟩

theorem lowerStr_supported_ne {l : String} (hl : l ∈ supportedLevels) :
    lowerStr l ≠ "mfma" ∧ lowerStr l ≠ "valu" := by
  simp only [supportedLevels, List.mem_cons, List.not_mem_nil, or_false] at hl
  rcases hl with rfl | rfl | rfl | rfl <;> exact ⟨by decide, by decide⟩

theorem find?_bws_none {bench : List BenchRow} {dev : Nat} {knee : PVal}
    {ls : List String} {res : List (String × CeilingLine)}
    (h : mkBWs bench dev knee ls = .ok res)
    (hsup : ∀ l ∈ ls, l ∈ supportedLevels) {k : String}
    (hk : k = "mfma" ∨ k = "valu") :
    res.find? (fun p => p.1 == k) = Option.none := by
  rw [List.find?_eq_none]
  intro p hp
  have hfst : p.1 ∈ res.map (·.1) := List.mem_map_of_mem _ hp
  rw [mkBWs_keys h] at hfst
  obtain ⟨l, hl, hpl⟩ := List.mem_map.mp hfst
  have hne := lowerStr_supported_ne (hsup l hl)
  rcases hk with rfl | rfl
  · simp [← hpl, hne.1]
  · simp [← hpl, hne.2]

theorem roof_find_mfma {bench : List BenchRow} {dev : Nat} {dtype : Dtype}
    {mems : MemSel} {ds : List (String × CeilingLine)}
    (h : constuct_roof bench dev dtype mems = .ok ds) :
    ∃ p, lookupBench bench dev ("MFMA-" ++ dtype.name) = .ok p ∧
      lookupCD ds "mfma" = .ok (computeLine p) := by
  obtain ⟨mp, bws, hc, hm, hb, hcase⟩ := roof_ok_inv h
  have hsup := checkSupported_mem hc
  have hnone := find?_bws_none hb hsup (Or.inl rfl)
  refine ⟨mp, hm, ?_⟩
  rcases hcase with ⟨hd, rfl⟩ | ⟨hd, vp, hv, rfl⟩ <;>
    simp [lookupCD, List.find?_append, hnone, List.find?]

theorem roof_find_valu {bench : List BenchRow} {dev : Nat} {dtype : Dtype}
    {mems : MemSel} {ds : List (String × CeilingLine)}
    (h : constuct_roof bench dev dtype mems = .ok ds)
    (hd : ¬(dtype = .FP16 ∨ dtype = .I8)) :
    ∃ p, lookupBench bench dev ("VALU-" ++ dtype.name) = .ok p ∧
      lookupCD ds "valu" = .ok (computeLine p) := by
  obtain ⟨mp, bws, hc, hm, hb, hcase⟩ := roof_ok_inv h
  have hsup := checkSupported_mem hc
  have hnone := find?_bws_none hb hsup (Or.inr rfl)
  rcases hcase with ⟨hd2, rfl⟩ | ⟨hd2, vp, hv, rfl⟩
  · exact absurd hd2 hd
  · exact ⟨vp, hv, by simp [lookupCD, List.find?_append, hnone, List.find?]⟩

theorem roof_bw_mem {bench : List BenchRow} {dev : Nat} {dtype : Dtype}
    {mems : MemSel} {ds : List (String × CeilingLine)}
    (h : constuct_roof bench dev dtype mems = .ok ds) {l : String}
    (hl : l ∈ resolveLevels mems) :
    ∃ b p, lookupBench bench dev l = .ok b ∧
      lookupBench bench dev ("MFMA-" ++ dtype.name) = .ok p ∧
      (lowerStr l, bwLine b p) ∈ ds := by
  obtain ⟨mp, bws, hc, hm, hb, hcase⟩ := roof_ok_inv h
  obtain ⟨b, hb1, hb2⟩ := mkBWs_mem hb l hl
  rcases hcase with ⟨hd, rfl⟩ | ⟨hd, vp, hv, rfl⟩ <;>
    exact ⟨b, mp, hb1, hm, List.mem_append_left _ hb2⟩

theorem bwTraces_names {ds : List (String × CeilingLine)} {dtype : Dtype}
    {std : Bool} {ls : List String} {ts : List Trace}
    (h : bwTraces ds dtype std ls = .ok ts) :
    ts.map (·.name) = ls.map (fun l => l ++ "-" ++ dtype.name) := by
  induction ls generalizing ts with
  | nil =>
    simp only [bwTraces] at h
    injection h with h2
    subst h2
    rfl
  | cons l ls ih =>
    simp only [bwTraces] at h
    cases h1 : lookupCD ds (lowerStr l) with
    | error e => simp [h1] at h
    | ok cd =>
      simp only [h1] at h
      cases h2 : fmtPeak cd.peak " GB/s" with
      | error e => simp [h2] at h
      | ok s =>
        simp only [h2] at h
        cases h3 : bwTraces ds dtype std ls with
        | error e => simp [h3] at h
        | ok rest =>
          simp only [h3] at h
          injection h with h4
          subst h4
          simp [ih h3]

theorem computeTrace_ok {ds : List (String × CeilingLine)} {key label : String}
    {std : Bool} {t : Trace} (h : computeTrace ds key label std = .ok t) :
    ∃ cd, lookupCD ds key = .ok cd ∧ t.name = label ∧
      t.xs = cd.xs ∧ t.ys = cd.ys := by
  unfold computeTrace at h
  cases h1 : lookupCD ds key with
  | error e => simp [h1] at h
  | ok cd =>
    simp only [h1] at h
    cases h2 : fmtPeak cd.peak " GFLOP/s" with
    | error e => simp [h2] at h
    | ok s =>
      simp only [h2] at h
      injection h with h3
      subst h3
      exact ⟨cd, rfl, rfl, rfl, rfl⟩

theorem valuTraces_inv {ds : List (String × CeilingLine)} {dtype : Dtype}
    {std : Bool} {vts : List Trace} (h : valuTraces ds dtype std = .ok vts) :
    ((dtype = .FP16 ∨ dtype = .I8) ∧ vts = []) ∨
    (¬(dtype = .FP16 ∨ dtype = .I8) ∧
      ∃ vt, computeTrace ds "valu" ("Peak VALU-" ++ dtype.name) std = .ok vt ∧
        vts = [vt]) := by
  unfold valuTraces at h
  by_cases hd : dtype = .FP16 ∨ dtype = .I8
  · rw [if_pos hd] at h
    injection h with h2
    exact Or.inl ⟨hd, h2.symm⟩
  · rw [if_neg hd] at h
    cases h1 : computeTrace ds "valu" ("Peak VALU-" ++ dtype.name) std with
    | error e => simp [h1] at h
    | ok vt =>
      simp only [h1] at h
      injection h with h2
      exact Or.inr ⟨hd, vt, rfl, h2.symm⟩

theorem gp_ok_inv {bench : List BenchRow} {dev : Nat} {dtype : Dtype}
    {ai : AIDataset} {mems : MemSel} {std kn : Bool} {ts : List Trace}
    (h : generate_plot bench dev dtype ai mems std kn = .ok ts) :
    ∃ ds bts vts mt,
      constuct_roof bench dev dtype mems = .ok ds ∧
      bwTraces ds dtype std (resolveLevels mems) = .ok bts ∧
      valuTraces ds dtype std = .ok vts ∧
      computeTrace ds "mfma" ("Peak MFMA-" ++ dtype.name) std = .ok mt ∧
      ts = bts ++ vts ++ [mt] ++ (if dtype = .I8 then [] else aiTraces ai) := by
  unfold generate_plot at h
  cases h1 : constuct_roof bench dev dtype mems with
  | error e => simp [h1] at h
  | ok ds =>
    simp only [h1] at h
    cases h2 : bwTraces ds dtype std (resolveLevels mems) with
    | error e => simp [h2] at h
    | ok bts =>
      simp only [h2] at h
      cases h3 : valuTraces ds dtype std with
      | error e => simp [h3] at h
      | ok vts =>
        simp only [h3] at h
        cases h4 : computeTrace ds "mfma" ("Peak MFMA-" ++ dtype.name) std with
        | error e => simp [h4] at h
        | ok mt =>
          simp only [h4] at h
          injection h with h5
          exact ⟨ds, bts, vts, mt, rfl, h2, h3, h4, h5.symm⟩

theorem gp_names {bench : List BenchRow} {dev : Nat} {dtype : Dtype}
    {ai : AIDataset} {mems : MemSel} {std kn : Bool} {ts : List Trace}
    (h : generate_plot bench dev dtype ai mems std kn = .ok ts) :
    ts.map (·.name)
      = (resolveLevels mems).map (fun l => l ++ "-" ++ dtype.name)
        ++ (if dtype = .FP16 ∨ dtype = .I8 then []
            else ["Peak VALU-" ++ dtype.name])
        ++ ["Peak MFMA-" ++ dtype.name]
        ++ (if dtype = .I8 then [] else ["ai_l1", "ai_l2", "ai_hbm"]) := by
  obtain ⟨ds, bts, vts, mt, h1, h2, h3, h4, rfl⟩ := gp_ok_inv h
  obtain ⟨cd, _, hname, _, _⟩ := computeTrace_ok h4
  have e2 : vts.map (·.name)
      = (if dtype = .FP16 ∨ dtype = .I8 then []
         else ["Peak VALU-" ++ dtype.name]) := by
    rcases valuTraces_inv h3 with ⟨hd, rfl⟩ | ⟨hd, vt, hvt, rfl⟩
    · rw [if_pos hd]
      rfl
    · rw [if_neg hd]
      obtain ⟨cdv, _, hn, _, _⟩ := computeTrace_ok hvt
      simp [hn]
  have e4 : (if dtype = .I8 then ([] : List Trace) else aiTraces ai).map (·.name)
      = (if dtype = .I8 then [] else ["ai_l1", "ai_l2", "ai_hbm"]) := by
    by_cases hi : dtype = .I8 <;> simp [hi, aiTraces]
  simp only [List.map_append]
  rw [bwTraces_names h2, e2, e4]
  simp [hname]

/-! ## Claims about the ceiling constructor and plotting layer -/

/-- C2: for a memory level with positive peak bandwidth b and
corresponding compute ceiling with positive peak rate c, the ceiling
constructor stores the bandwidth-bound line whose second point is exactly
the knee (c / b, c); the bandwidth segment y = b * x and the horizontal
compute segment y = c meet at exactly that one point. -/
theorem bandwidth_compute_knee (b c : ℚ) (hb : 0 < b) (hc : 0 < c) :
    (bwLine (.num b) (.num c)).xs = [PVal.num aiMin, PVal.num (c / b)] ∧
    (bwLine (.num b) (.num c)).ys = [PVal.num (b * aiMin), PVal.num c] ∧
    (∀ x : ℚ, b * x = c ↔ x = c / b) ∧
    (∀ bench dev dtype mems ds,
      constuct_roof bench dev dtype mems = .ok ds →
      ∀ l ∈ resolveLevels mems, lookupBench bench dev l = .ok (.num b) →
        lookupBench bench dev ("MFMA-" ++ dtype.name) = .ok (.num c) →
        (lowerStr l, bwLine (.num b) (.num c)) ∈ ds) := by
  have hb0 : b ≠ 0 := ne_of_gt hb
  have hdiv : PVal.div (.num c) (.num b) = .num (c / b) := by
    simp [PVal.div, qdiv, hb0]
  refine ⟨?_, ?_, ?_, ?_⟩
  · simp [bwLine, hdiv]
  · simp only [bwLine, hdiv, PVal.mul]
    rw [mul_comm b (c / b), div_mul_cancel₀ c hb0]
  · intro x
    rw [eq_div_iff hb0, mul_comm]
  · intro bench dev dtype mems ds hds l hl hlb hlm
    obtain ⟨b2, p2, hb2, hp2, hmem⟩ := roof_bw_mem hds hl
    rw [hlb] at hb2
    rw [hlm] at hp2
    injection hb2 with e1
    injection hp2 with e2
    rw [← e1, ← e2] at hmem
    exact hmem

/-- C2 witness: with bandwidth 1000 and compute peak 5000 the bandwidth
line ends exactly at the knee (5, 5000). -/
theorem bandwidth_compute_knee_witness :
    (0 : ℚ) < 1000 ∧ (0 : ℚ) < 5000 ∧
    (bwLine (.num 1000) (.num 5000)).xs = [PVal.num aiMin, PVal.num 5] ∧
    (bwLine (.num 1000) (.num 5000)).ys = [PVal.num 10, PVal.num 5000] := by
  have h := bandwidth_compute_knee 1000 5000 (by norm_num) (by norm_num)
  refine ⟨by norm_num, by norm_num, ?_, ?_⟩
  · rw [h.1]
    norm_num
  · rw [h.2.1]
    norm_num [aiMin]

/-- C5: when some requested level has no benchmark row and every requested
level is in the known hierarchy, the ceiling constructor fails with
MetricNotFoundError; its result being a single Except value, the failing
call produces no partial ceiling output. -/
theorem missing_metric_fails (bench : List BenchRow) (dev : Nat)
    (dtype : Dtype) (levels : List String) (level : String)
    (hsup : ∀ l ∈ levels, l ∈ supportedLevels) (hmem : level ∈ levels)
    (hmiss : bench.find? (fun r => r.device == dev && r.metric == level)
      = Option.none) :
    isMetricNotFound (constuct_roof bench dev dtype (.chosen levels)) = true := by
  have herr : lookupBench bench dev level = .error (.metricNotFound level) := by
    unfold lookupBench
    rw [hmiss]
  simp only [constuct_roof, resolveLevels, checkSupported_ok hsup]
  cases hm : lookupBench bench dev ("MFMA-" ++ dtype.name) with
  | error e =>
    obtain rfl := lookupBench_err hm
    rfl
  | ok mp =>
    cases hbw : mkBWs bench dev mp levels with
    | ok res => exact absurd hbw (mkBWs_not_ok hmem herr res)
    | error e =>
      obtain ⟨m, rfl⟩ := mkBWs_err hbw
      simp [hbw, isMetricNotFound]

/-- C5 witness: requesting HBM and LDS against a table lacking an LDS row
fails with MetricNotFoundError. -/
theorem missing_metric_fails_witness :
    isMetricNotFound
      (constuct_roof benchMissingLDS 0 .FP32 (.chosen ["HBM", "LDS"])) = true :=
  missing_metric_fails benchMissingLDS 0 .FP32 ["HBM", "LDS"] "LDS"
    (by decide) (by decide) (by with_unfolding_all decide)

/-- C8: in a successful plot construction the bandwidth ceilings come
first, exactly one per requested memory level and in request order, with
the sentinel ALL resolving to HBM, L2, L1, LDS in that order and an
explicit request resolving to itself; the only further traces are the
compute ceilings and the AI scatter series. -/
theorem memlevel_ceilings (bench : List BenchRow) (dev : Nat) (dtype : Dtype)
    (ai : AIDataset) (mems : MemSel) (std kn : Bool) (ts : List Trace)
    (h : generate_plot bench dev dtype ai mems std kn = .ok ts) :
    ts.map (·.name)
      = (resolveLevels mems).map (fun l => l ++ "-" ++ dtype.name)
        ++ (if dtype = .FP16 ∨ dtype = .I8 then []
            else ["Peak VALU-" ++ dtype.name])
        ++ ["Peak MFMA-" ++ dtype.name]
        ++ (if dtype = .I8 then [] else ["ai_l1", "ai_l2", "ai_hbm"]) ∧
    resolveLevels MemSel.all = ["HBM", "L2", "L1", "LDS"] ∧
    (∀ ls, resolveLevels (MemSel.chosen ls) = ls) :=
  ⟨gp_names h, rfl, fun _ => rfl⟩

/-- C8 witness: the FP32 plot over the sample benchmark table with the ALL
sentinel emits the four bandwidth ceilings HBM, L2, L1, LDS in that
order, then the compute ceilings and AI series. -/
theorem memlevel_ceilings_witness :
    (getTraces (generate_plot benchA 0 .FP32 default .all false false)).map (·.name)
      = (resolveLevels MemSel.all).map (fun l => l ++ "-" ++ Dtype.FP32.name)
        ++ (if Dtype.FP32 = .FP16 ∨ Dtype.FP32 = .I8 then []
            else ["Peak VALU-" ++ Dtype.FP32.name])
        ++ ["Peak MFMA-" ++ Dtype.FP32.name]
        ++ (if Dtype.FP32 = .I8 then [] else ["ai_l1", "ai_l2", "ai_hbm"]) :=
  (memlevel_ceilings benchA 0 .FP32 default .all false false
    (getTraces (generate_plot benchA 0 .FP32 default .all false false))
    (by with_unfolding_all rfl)).1

/-- C9: a successful plot construction always contains the MFMA compute
ceiling, a horizontal two-point line spanning the AI domain at the
looked-up MFMA peak; it contains a VALU compute ceiling, of the same
horizontal shape at the VALU peak, exactly when the datatype is neither
FP16 nor I8. -/
theorem compute_ceilings (bench : List BenchRow) (dev : Nat) (dtype : Dtype)
    (ai : AIDataset) (mems : MemSel) (std kn : Bool) (ts : List Trace)
    (h : generate_plot bench dev dtype ai mems std kn = .ok ts) :
    (∃ p, lookupBench bench dev ("MFMA-" ++ dtype.name) = .ok p ∧
      ∃ t, t ∈ ts ∧ t.name = "Peak MFMA-" ++ dtype.name ∧
        t.xs = [PVal.num aiMin, PVal.num aiMax] ∧ t.ys = [p, p]) ∧
    (¬(dtype = .FP16 ∨ dtype = .I8) →
      ∃ p, lookupBench bench dev ("VALU-" ++ dtype.name) = .ok p ∧
        ∃ t, t ∈ ts ∧ t.name = "Peak VALU-" ++ dtype.name ∧
          t.xs = [PVal.num aiMin, PVal.num aiMax] ∧ t.ys = [p, p]) ∧
    ((dtype = .FP16 ∨ dtype = .I8) →
      ∀ t ∈ ts, t.name ≠ "Peak VALU-" ++ dtype.name) := by
  obtain ⟨ds, bts, vts, mt, h1, h2, h3, h4, hts⟩ := gp_ok_inv h
  obtain ⟨mp, hmp, hcd⟩ := roof_find_mfma h1
  obtain ⟨cd, hcd2, hnm, hxs, hys⟩ := computeTrace_ok h4
  rw [hcd] at hcd2
  injection hcd2 with hcdeq
  refine ⟨⟨mp, hmp, mt, ?_, hnm, ?_, ?_⟩, ?_, ?_⟩
  · rw [hts]
    simp
  · rw [hxs, ← hcdeq]
    rfl
  · rw [hys, ← hcdeq]
    rfl
  · intro hd
    obtain ⟨vp, hvp, hcdv⟩ := roof_find_valu h1 hd
    rcases valuTraces_inv h3 with ⟨hd2, _⟩ | ⟨hd2, vt, hvt, hveq⟩
    · exact absurd hd2 hd
    · obtain ⟨cdv, hcdv2, hnv, hxv, hyv⟩ := computeTrace_ok hvt
      rw [hcdv] at hcdv2
      injection hcdv2 with hcdveq
      refine ⟨vp, hvp, vt, ?_, hnv, ?_, ?_⟩
      · rw [hts, hveq]
        simp
      · rw [hxv, ← hcdveq]
        rfl
      · rw [hyv, ← hcdveq]
        rfl
  · intro hd t ht hname2
    have hnames := gp_names h
    have hmem2 : t.name ∈ ts.map (·.name) := List.mem_map_of_mem _ ht
    rw [hnames, hname2, if_pos hd] at hmem2
    obtain ⟨mp2, bws2, hcs, _, _, _⟩ := roof_ok_inv h1
    have hsup := checkSupported_mem hcs
    rcases List.mem_append.mp hmem2 with hmem3 | hAI
    · rcases List.mem_append.mp hmem3 with hmem4 | hM
      · rcases List.mem_append.mp hmem4 with hA | hV
        · obtain ⟨l, hl, hleq⟩ := List.mem_map.mp hA
          have hls := hsup l hl
          simp only [supportedLevels, List.mem_cons, List.not_mem_nil,
            or_false] at hls
          rcases hd with rfl | rfl <;>
            rcases hls with rfl | rfl | rfl | rfl <;>
              exact absurd hleq (by decide)
        · exact absurd hV (by simp)
      · rcases hd with rfl | rfl <;> exact absurd hM (by decide)
    · rcases hd with rfl | rfl
      · rw [if_neg (by decide : ¬(Dtype.FP16 = Dtype.I8))] at hAI
        exact absurd hAI (by decide)
      · rw [if_pos rfl] at hAI
        exact absurd hAI (by simp)

/-- C9 witness: the FP16 plot over the sample benchmark table contains the
horizontal MFMA ceiling at the looked-up peak and no VALU ceiling. -/
theorem compute_ceilings_witness :
    (∃ p, lookupBench benchA 0 ("MFMA-" ++ Dtype.FP16.name) = .ok p ∧
      ∃ t, t ∈ getTraces (generate_plot benchA 0 .FP16 default .all false false) ∧
        t.name = "Peak MFMA-" ++ Dtype.FP16.name ∧
        t.xs = [PVal.num aiMin, PVal.num aiMax] ∧ t.ys = [p, p]) ∧
    (∀ t ∈ getTraces (generate_plot benchA 0 .FP16 default .all false false),
      t.name ≠ "Peak VALU-" ++ Dtype.FP16.name) := by
  have h := compute_ceilings benchA 0 .FP16 default .all false false
    (getTraces (generate_plot benchA 0 .FP16 default .all false false))
    (by with_unfolding_all rfl)
  exact ⟨h.1, h.2.2 (Or.inl rfl)⟩

/-! ## Claims about the entry points -/

/-- C10: when the requested memory-level list contains vL1D, the
standalone entry point removes the first vL1D and appends L1 before
invoking the pipeline, and L1 is then the metric name used to consult the
benchmark table for that level: a successful ceiling construction over the
normalized list stores under key l1 a bandwidth line whose peak was looked
up under the metric name L1. -/
theorem vl1d_alias (ls : List String) (h : "vL1D" ∈ ls) :
    normalizeMemLevels ls = ls.erase "vL1D" ++ ["L1"] ∧
    (∀ bench counters dev sort kn,
      standalone_roofline bench counters dev sort (.chosen ls) kn
        = empirical_roofline bench counters dev sort
            (.chosen (ls.erase "vL1D" ++ ["L1"])) kn true) ∧
    (∀ bench dev dtype ds,
      constuct_roof bench dev dtype (.chosen (normalizeMemLevels ls)) = .ok ds →
      ∃ b p, lookupBench bench dev "L1" = .ok b ∧ ("l1", bwLine b p) ∈ ds) := by
  have h1 : normalizeMemLevels ls = ls.erase "vL1D" ++ ["L1"] := by
    unfold normalizeMemLevels
    rw [if_pos h]
  refine ⟨h1, ?_, ?_⟩
  · intro bench counters dev sort kn
    simp only [standalone_roofline, normalizeMemSel]
    rw [h1]
  · intro bench dev dtype ds hds
    have hL1 : "L1" ∈ resolveLevels (.chosen (normalizeMemLevels ls)) := by
      show "L1" ∈ normalizeMemLevels ls
      rw [h1]
      simp
    obtain ⟨b, p, hb, hp, hmem⟩ := roof_bw_mem hds hL1
    refine ⟨b, p, hb, ?_⟩
    have hlow : lowerStr "L1" = "l1" := by decide
    rw [← hlow]
    exact hmem

/-- C10 witness: the list consisting of vL1D alone normalizes to the list
consisting of L1 alone. -/
theorem vl1d_alias_witness :
    normalizeMemLevels ["vL1D"] = (["vL1D"].erase "vL1D") ++ ["L1"] :=
  (vl1d_alias ["vL1D"] (by decide)).1

/-- C6 counterexample: a concrete input on which the extractor and all
three per-datatype plot constructions succeed (with the same standalone
and kernel-names settings), yet the coordinator fails with its own
argument-validation error from src/src/roofline.py lines 272-274, because
kernel names are requested outside standalone mode.  This refutes the
claim that the coordinator introduces no error conditions of its own. -/
theorem coordinator_own_error :
    pipelineOk benchA rowsA .kernel (.chosen ["HBM"]) false true = true ∧
    empirical_roofline benchA rowsA 0 .kernel (.chosen ["HBM"]) true false
      = .error .kernelNamesRequiresStandalone := by
  constructor
  · with_unfolding_all decide
  · rfl

/-- C6 amended: apart from its one argument check, kernel names require
standalone mode, the coordinator introduces no error conditions of its
own: when that check passes, it succeeds whenever the extractor and the
three plot constructions succeed, and every failure it reports is exactly
an extractor failure or a plot-construction failure, unchanged. -/
theorem coordinator_propagates (bench : List BenchRow)
    (counters : List CounterRow) (dev : Nat) (sort : AggKey) (mems : MemSel)
    (kn std : Bool) (h : (kn && !std) = false) :
    (pipelineOk bench counters sort mems std kn = true →
      exOk (empirical_roofline bench counters dev sort mems kn std) = true) ∧
    (∀ e, empirical_roofline bench counters dev sort mems kn std = .error e →
      (∃ ee, e = .extract ee ∧ calc_ai sort counters = .error ee) ∨
      (∃ pe, e = .plot pe ∧ ∃ ai, calc_ai sort counters = .ok ai ∧
        (generate_plot bench 0 .FP32 ai mems std kn = .error pe ∨
         generate_plot bench 0 .FP16 ai mems std kn = .error pe ∨
         generate_plot bench 0 .I8 ai mems std kn = .error pe))) := by
  unfold empirical_roofline pipelineOk
  rw [h, if_neg Bool.false_ne_true]
  cases hc : calc_ai sort counters with
  | error e =>
    simp only []
    refine ⟨fun hpl => by simp at hpl, fun e2 he => ?_⟩
    injection he with he2
    exact Or.inl ⟨e, he2.symm, by simp⟩
  | ok ai =>
    simp only []
    cases g32 : generate_plot bench 0 .FP32 ai mems std kn with
    | error e =>
      simp only []
      refine ⟨fun hpl => by simp [exOk] at hpl, fun e2 he => ?_⟩
      injection he with he2
      exact Or.inr ⟨e, he2.symm, ai, rfl, Or.inl g32⟩
    | ok fp32 =>
      simp only []
      cases g16 : generate_plot bench 0 .FP16 ai mems std kn with
      | error e =>
        simp only []
        refine ⟨fun hpl => by simp [exOk] at hpl, fun e2 he => ?_⟩
        injection he with he2
        exact Or.inr ⟨e, he2.symm, ai, rfl, Or.inr (Or.inl g16)⟩
      | ok fp16 =>
        simp only []
        cases g8 : generate_plot bench 0 .I8 ai mems std kn with
        | error e =>
          simp only []
          refine ⟨fun hpl => by simp [exOk] at hpl, fun e2 he => ?_⟩
          injection he with he2
          exact Or.inr ⟨e, he2.symm, ai, rfl, Or.inr (Or.inr g8)⟩
        | ok i8 =>
          simp only []
          exact ⟨fun hpl => rfl, fun e2 he => by simp at he⟩

/-- C6 amended witness: with kernel names off the argument check passes
and the coordinator succeeds on the sample input on which the pipeline
succeeds. -/
theorem coordinator_propagates_witness :
    exOk (empirical_roofline benchA rowsA 0 .kernel (.chosen ["HBM"])
      false true) = true :=
  (coordinator_propagates benchA rowsA 0 .kernel (.chosen ["HBM"])
    false true rfl).1 (by with_unfolding_all decide)

/-- C1 witness: on the sample table the emitted HBM AI series matches the
total-ops over total-bytes formula group by group, the zero-bytes group
giving NaN. -/
theorem ai_ratio_correct_witness :
    (getAI (calc_ai .kernel rowsA)).ai_hbm.1
      = (keptGroups .kernel rowsA).map (fun g =>
          if (totalsOf g.2).bytesHBM = 0 then PVal.nan
          else PVal.num ((totalsOf g.2).ops / (totalsOf g.2).bytesHBM)) :=
  ((ai_ratio_correct .kernel rowsA).1 (getAI (calc_ai .kernel rowsA))
    (by with_unfolding_all rfl)).2.2

/-- C4 witness: on the sample table, whose second kernel has total
duration zero, the emitted label list enumerates exactly the groups with
nonzero duration. -/
theorem zero_duration_excluded_witness :
    (getAI (calc_ai .kernel rowsA)).kernelNames
      = ((groupRows .kernel rowsA).filter
          (fun g => decide ((totalsOf g.2).duration ≠ 0))).map (·.1) :=
  (zero_duration_excluded .kernel rowsA (getAI (calc_ai .kernel rowsA))
    (by with_unfolding_all rfl)).1

end Omniperf
